import Mathlib

/-
Verification of the snipAI run pipeline and record store (src/main.py).

The Python source is shallowly embedded below:
  - strings are modelled as Lean String / List Char (Python compares strings
    lexicographically by code point, embedded as strLeB);
  - the run record dict built by NewRunWindow._collect (main.py 265-275) is the
    RunRecord structure;
  - execute_gemini_process (main.py 156-224) is a pure function over an
    environment that fixes the outcome of each external collaborator
    (API key lookup, the Gemini call, rendering, the Drive upload);
  - the on-disk record store (data/runs/<run_id>/run.json) is a list of
    (directory name, parsed-or-corrupt record) pairs.
-/

/-- RunRecord: the dictionary built by NewRunWindow._collect, main.py 265-275.
Fields run_id, created_at, purpose, doc_format (None | "Word" | "Excel" |
"PowerPoint"), captures (ordered file names), status, output_basename,
output_file and save_target, exactly as the code constructs them. -/
structure RunRecord where
  run_id : String
  created_at : String
  purpose : String
  doc_format : Option String
  captures : List String
  status : String
  output_basename : String
  output_file : String
  save_target : String
deriving DecidableEq, Repr

/-- Lexicographic code-point comparison of strings, as Python performs it when
load_run_records sorts by the created_at key (main.py 122). true means the
first list is less than or equal to the second. -/
def strLeB : List Char → List Char → Bool
  | [], _ => true
  | _ :: _, [] => false
  | a :: as, b :: bs => if a < b then true else if b < a then false else strLeB as bs

/-- Descending order on created_at used by records.sort(key=..., reverse=True),
main.py 122: a comes before b when b.created_at is less than or equal to
a.created_at in Python string order. -/
def createdGe (a b : RunRecord) : Prop := strLeB b.created_at.data a.created_at.data = true

instance : DecidableRel createdGe :=
  fun a b => inferInstanceAs (Decidable (strLeB b.created_at.data a.created_at.data = true))

/-- The compiled regex WINDOWS_FORBIDDEN_CHARS, main.py 45: the character class
matching backslash, slash, colon, star, question mark, double quote, angle
brackets and pipe. -/
def isForbiddenChar (c : Char) : Bool :=
  c == '\\' || c == '/' || c == ':' || c == '*' || c == '?' || c == '"' ||
    c == '<' || c == '>' || c == '|'

/-- One substitution step of WINDOWS_FORBIDDEN_CHARS.sub("_", s): a forbidden
character becomes an underscore, every other character is kept. -/
def subChar (c : Char) : Char := if isForbiddenChar c then '_' else c

/-- Drop elements satisfying p from both ends of a list; instantiated with
Char.isWhitespace this is Python's str.strip(). -/
def stripEnds (p : α → Bool) (l : List α) : List α :=
  ((l.dropWhile p).reverse.dropWhile p).reverse

/-- Python str.strip(): remove leading and trailing whitespace
(ASCII whitespace; Python also strips some rarer Unicode spaces, which no
claim exercises). -/
def pyStrip (l : List Char) : List Char := stripEnds Char.isWhitespace l

/-- Core of sanitize_output_basename, main.py 137-139, on character lists:
strip the raw text, substitute every forbidden character with an underscore,
and fall back to "result" when the outcome is empty (the Python `or "result"`
on a falsy empty string). -/
def sanitizeList (l : List Char) : List Char :=
  let t := (pyStrip l).map subChar
  if t = [] then "result".data else t

/-- sanitize_output_basename, main.py 137-139:
WINDOWS_FORBIDDEN_CHARS.sub("_", (raw or "").strip()) or "result". -/
def sanitize_output_basename (raw : String) : String := String.mk (sanitizeList raw.data)

/-- Python str.replace("**", ""): remove non-overlapping occurrences of two
consecutive stars, scanning left to right (main.py 209). -/
def removeStarStar : List Char → List Char
  | [] => []
  | '*' :: '*' :: rest => removeStarStar rest
  | c :: rest => c :: removeStarStar rest

/-- Python str.replace("#", ""): remove every hash character (main.py 209). -/
def removeHash (l : List Char) : List Char := l.filter (fun c => c != '#')

/-- The plain-text renderer branch of execute_gemini_process, main.py 207-209:
ai_text.replace("**", "").replace("#", "").strip() is what gets written to
the .txt artifact. -/
def render_plain_text (ai_text : String) : String :=
  String.mk (pyStrip (removeHash (removeStarStar ai_text.data)))

/-- One element of the multimodal payload handed to
model.generate_content: the instruction text or one loaded capture image
(identified here by its file name). -/
inductive PromptPart where
  | text (s : String)
  | image (name : String)
deriving DecidableEq, Repr

/-- The instruction string assembled in main.py 173-177: the purpose line
followed by the format-specific directive for Word, Excel, PowerPoint, or the
plain-text directive for any other doc_format (including None). -/
def build_prompt (purpose : String) (doc_format : Option String) : String :=
  let base := "目的: " ++ purpose ++ "\n"
  if doc_format = some "Word" then base ++ "指示: 構造化レポート形式で出力。"
  else if doc_format = some "Excel" then base ++ "指示: タブ区切りの表形式で出力。"
  else if doc_format = some "PowerPoint" then base ++ "指示: スライド構成案を出力。"
  else base ++ "指示: 装飾記号を使わないプレーンテキストで出力。"

/-- The prompt_parts list built in main.py 180-183: start from the single
instruction string, then loop over record.captures in order and append each
image whose file exists under data/captures/<run_id>/ (captureExists models
the img_p.exists() test); a missing file appends nothing. -/
def prompt_parts (record : RunRecord) (captureExists : String → Bool) : List PromptPart :=
  record.captures.foldl
    (fun acc img => if captureExists img then acc ++ [PromptPart.image img] else acc)
    [PromptPart.text (build_prompt record.purpose record.doc_format)]

/-- Artifact extension chosen by the if/elif chain in main.py 195-208: Word,
Excel and PowerPoint get their Office extension, every other doc_format
(including None) falls through to .txt. -/
def format_ext : Option String → String
  | some "Word" => ".docx"
  | some "Excel" => ".xlsx"
  | some "PowerPoint" => ".pptx"
  | _ => ".txt"

/-- MIME type assigned alongside the artifact in main.py 192-205; the initial
value "text/plain" survives for the plain-text branch. -/
def format_mime : Option String → String
  | some "Word" => "application/vnd.openxmlformats-officedocument.wordprocessingml.document"
  | some "Excel" => "application/vnd.openxmlformats-officedocument.spreadsheetml.sheet"
  | some "PowerPoint" => "application/vnd.openxmlformats-officedocument.presentationml.presentation"
  | _ => "text/plain"

/-- Observable result of one execute_gemini_process invocation: the function
returns early when no API key is available (main.py 158-159), shows the
critical error dialog when the try block raises (main.py 221-222), and
otherwise completes, with the optional Drive id from upload_to_drive. -/
inductive RunOutcome where
  | noApiKey
  | failure (msg : String)
  | success (driveId : Option String)
deriving DecidableEq, Repr

/-- Fixed outcomes of the external collaborators for one pipeline run:
apiKey is what get_api_key yields (main.py 141-153); generate is the Gemini
call model.generate_content (main.py 186), returning response text or raising;
captureExists is the img_p.exists() test (main.py 183); renderFault is an
exception raised by the document library while writing the artifact
(main.py 195-209), none when rendering succeeds; uploadResult is the outcome
of the upload step upload_to_drive (main.py 78-92). That step is not total:
upload_to_drive returns None when get_drive_service yields no service
(credentials.json missing, main.py 65-67) and when the files().create call
raises (caught at main.py 86-92), and returns the file id on success — these
are Except.ok none and Except.ok (some id) here. But get_drive_service itself
is called at main.py 80 outside any try, and has no handler around the
pickle.load of the token cache (main.py 57-58), creds.refresh on an expired
token (a network call, main.py 63), the OAuth flow.run_local_server
(main.py 68-69) or the token write (main.py 72-74): an exception from any of
these escapes the upload step, modelled as Except.error e. -/
structure Env where
  apiKey : Option String
  generate : List PromptPart → Except String String
  captureExists : String → Bool
  renderFault : Option String
  uploadResult : Except String (Option String)

/-- Trace of one execute_gemini_process run: the outcome, whether
model.generate_content was invoked, the record value passed to
save_run_record (none when that line is never reached), the artifact written
to data/outputs/<run_id>/ as (file name, MIME type) (none when the run aborts
before the record update; a partial artifact left behind by a rendering fault
is not modelled, as no claim examines it), and the record dict after the
in-place mutation of main.py 212. -/
structure ExecTrace where
  outcome : RunOutcome
  generateCalled : Bool
  savedRecord : Option RunRecord
  artifact : Option (String × String)
  finalRecord : RunRecord
deriving DecidableEq, Repr

/-- execute_gemini_process, main.py 156-224. Control flow of the source: no
API key means an early return before any external call; then the prompt is
assembled and model.generate_content is called; an exception from it lands in
the except branch (critical dialog) with the record untouched and nothing
written, because the record mutation, save_run_record call and artifact write
all come later; a rendering exception likewise reaches the except branch
before the mutation at main.py 212; on a successful render the record is
mutated to status "done" with output_file = basename plus extension and
saved (main.py 212-213), the artifact exists, and only then does the upload
step run (main.py 216). A value returned by upload_to_drive (None or a file
id) yields the completed outcome; an exception escaping the upload step
reaches the same except branch at main.py 221-222 and surfaces the
run-failure dialog — after the record has already been saved done, so
savedRecord, artifact and finalRecord keep their post-save values on that
path. os.startfile (main.py 213) is not modelled. -/
def execute_gemini_process (record : RunRecord) (env : Env) : ExecTrace :=
  match env.apiKey with
  | none =>
    { outcome := RunOutcome.noApiKey, generateCalled := false, savedRecord := none,
      artifact := none, finalRecord := record }
  | some _ =>
    match env.generate (prompt_parts record env.captureExists) with
    | Except.error e =>
      { outcome := RunOutcome.failure e, generateCalled := true, savedRecord := none,
        artifact := none, finalRecord := record }
    | Except.ok _ =>
      match env.renderFault with
      | some e =>
        { outcome := RunOutcome.failure e, generateCalled := true, savedRecord := none,
          artifact := none, finalRecord := record }
      | none =>
        let target := record.output_basename ++ format_ext record.doc_format
        let done := { record with status := "done", output_file := target }
        match env.uploadResult with
        | Except.error e =>
          { outcome := RunOutcome.failure e, generateCalled := true,
            savedRecord := some done,
            artifact := some (target, format_mime record.doc_format),
            finalRecord := done }
        | Except.ok driveId =>
          { outcome := RunOutcome.success driveId, generateCalled := true,
            savedRecord := some done,
            artifact := some (target, format_mime record.doc_format),
            finalRecord := done }

/-- Result of NewRunWindow.run_now, main.py 296-300: the warning dialog when
the capture list is empty, otherwise the pipeline trace. -/
inductive RunNowResult where
  | warned
  | ran (t : ExecTrace)
deriving DecidableEq, Repr

/-- NewRunWindow.run_now, main.py 296-300: an empty capture list shows the
warning and returns before anything runs; otherwise the record is collected,
persisted and executed (the save and history append are not needed by any
claim and are elided from the result). -/
def run_now (record : RunRecord) (env : Env) : RunNowResult :=
  if record.captures.isEmpty then RunNowResult.warned
  else RunNowResult.ran (execute_gemini_process record env)

/-- Result of HistoryWindow._handle, main.py 327-333. -/
inductive HandleResult where
  | openedFile
  | fileMissing
  | ran (t : ExecTrace)
deriving DecidableEq, Repr

/-- HistoryWindow._handle, main.py 327-333: a "done" record opens its output
file (or warns when the file is gone); any other status goes straight into
execute_gemini_process with no check on captures. -/
def history_handle (record : RunRecord) (env : Env) (outputExists : Bool) : HandleResult :=
  if record.status = "done" then
    (if outputExists then HandleResult.openedFile else HandleResult.fileMissing)
  else HandleResult.ran (execute_gemini_process record env)

/-- load_run_records, main.py 111-123, over a store snapshot: the list holds
one entry per data/runs/<run_id>/run.json in directory-iteration order, some
record when json.load parses it and none when it raises (the except-continue
skips it); the parsed records are sorted stably by created_at descending
(List.insertionSort with createdGe is stable, as Python's sort is) and the
first limit records are returned. -/
def load_run_records (entries : List (Option RunRecord)) (limit : Nat) : List RunRecord :=
  (List.insertionSort createdGe (entries.filterMap id)).take limit

/-- The on-disk run store, data/runs: one (directory name, parsed run.json)
pair per run directory; none stands for a file json.load cannot parse. The
successful write path of save_run_record, main.py 125-135, rewrites the entry
whose directory is the record's run_id, or creates the directory and file when
absent; an empty run_id writes nothing. -/
def store_save (store : List (String × Option RunRecord)) (r : RunRecord) :
    List (String × Option RunRecord) :=
  if r.run_id = "" then store
  else if store.any (fun p => p.1 == r.run_id) then
    store.map (fun p => if p.1 == r.run_id then (p.1, some r) else p)
  else store ++ [(r.run_id, some r)]

/-- The recent_runs interface of the spec: load_run_records applied to the
store's file contents. -/
def recent_runs (store : List (String × Option RunRecord)) (limit : Nat) : List RunRecord :=
  load_run_records (store.map Prod.snd) limit

/-- File-system outcome of one save_run_record call, main.py 125-135: ok when
both the mkdir and the json.dump succeed, mkdirFail when
run_dir.mkdir(parents=True, exist_ok=True) raises, writeFail when opening or
dumping run.json raises. -/
inductive SaveFs where
  | ok
  | mkdirFail
  | writeFail
deriving DecidableEq, Repr

/-- save_run_record, main.py 125-135, faithful to the source's control flow:
a falsy run_id returns False at once; the mkdir call sits BEFORE the try
block, so an exception it raises propagates out of the function (modelled as
Except.error); an exception inside the try (opening or writing run.json) is
caught and returns False; otherwise the function returns True. -/
def save_run_record (r : RunRecord) (fs : SaveFs) : Except String Bool :=
  if r.run_id = "" then Except.ok false
  else
    match fs with
    | SaveFs.mkdirFail => Except.error "mkdir failed"
    | SaveFs.writeFail => Except.ok false
    | SaveFs.ok => Except.ok true

/-- Ready record with an empty captures list, as produced by save_only
(main.py 302-304) when no screenshot was taken; used to exercise the run
entry points. -/
def emptyCaptureRecord : RunRecord :=
  { run_id := "20250102_000000", created_at := "2025-01-02T00:00:00",
    purpose := "まとめる", doc_format := none, captures := [],
    status := "ready", output_basename := "result", output_file := "result.txt",
    save_target := "local" }

/-- Recording-stub collaborators: an API key is available, the backend would
answer, no capture file exists on disk. -/
def stubEnv : Env :=
  { apiKey := some "key", generate := fun _ => Except.ok "text",
    captureExists := fun _ => false, renderFault := none,
    uploadResult := Except.ok none }

/-- Ready record with one capture, used as the concrete input of the
generation-failure scenario. -/
def rec2 : RunRecord :=
  { run_id := "20250101_000000", created_at := "2025-01-01T00:00:00",
    purpose := "まとめる", doc_format := none, captures := ["001.png"],
    status := "ready", output_basename := "result", output_file := "result.txt",
    save_target := "local" }

/-- Collaborators for the generation-failure scenario: key present, the
Gemini call raises. -/
def env2 : Env :=
  { apiKey := some "k", generate := fun _ => Except.error "quota exceeded",
    captureExists := fun _ => true, renderFault := none,
    uploadResult := Except.ok none }

/-- Ready Excel-format record used as the concrete input of the
upload-failure scenario. -/
def rec3 : RunRecord :=
  { run_id := "20250104_000000", created_at := "2025-01-04T00:00:00",
    purpose := "まとめる", doc_format := some "Excel", captures := ["001.png"],
    status := "ready", output_basename := "report", output_file := "report.xlsx",
    save_target := "local" }

/-- Collaborators for the degraded-upload scenario: generation and rendering
succeed, upload_to_drive returns None without raising (credentials.json
missing, or a Drive API error caught at main.py 86-92). -/
def env3 : Env :=
  { apiKey := some "k", generate := fun _ => Except.ok "cell text",
    captureExists := fun _ => true, renderFault := none,
    uploadResult := Except.ok none }

/-- Collaborators for the escaping-upload-exception scenario: generation and
rendering succeed, but the upload step raises out of get_drive_service
(e.g. a network error while refreshing the cached token, main.py 63). -/
def env3x : Env :=
  { apiKey := some "k", generate := fun _ => Except.ok "cell text",
    captureExists := fun _ => true, renderFault := none,
    uploadResult := Except.error "network error during token refresh" }

/-- Record already stored with a later created_at than recB, crowding it out
of a one-slot recent_runs listing. -/
def recA : RunRecord :=
  { run_id := "a", created_at := "2025-06-01T00:00:00", purpose := "p", doc_format := none,
    captures := [], status := "ready", output_basename := "result",
    output_file := "result.txt", save_target := "local" }

/-- Record saved after recA but with an earlier created_at. -/
def recB : RunRecord :=
  { run_id := "b", created_at := "2024-01-01T00:00:00", purpose := "p", doc_format := none,
    captures := [], status := "ready", output_basename := "result",
    output_file := "result.txt", save_target := "local" }

/-- Record with a non-empty run_id used to exercise save_run_record. -/
def rec9 : RunRecord :=
  { run_id := "20250103_000000", created_at := "2025-01-03T00:00:00", purpose := "p",
    doc_format := none, captures := [], status := "ready", output_basename := "result",
    output_file := "result.txt", save_target := "local" }

/- ------------------------------------------------------------------ -/
/- Helper lemmas -/
/- ------------------------------------------------------------------ -/

theorem strLeB_total : ∀ x y : List Char, strLeB x y = true ∨ strLeB y x = true := by
  intro x
  induction x with
  | nil => intro y; left; rfl
  | cons a as ih =>
    intro y
    cases y with
    | nil => right; rfl
    | cons b bs =>
      rcases lt_trichotomy a b with h | h | h
      · left; simp [strLeB, h]
      · subst h
        rcases ih bs with h2 | h2
        · left; simp [strLeB, lt_irrefl, h2]
        · right; simp [strLeB, lt_irrefl, h2]
      · right; simp [strLeB, h]

theorem strLeB_trans : ∀ x y z : List Char, strLeB x y = true → strLeB y z = true →
    strLeB x z = true := by
  intro x
  induction x with
  | nil => intro y z _ _; rfl
  | cons a as ih =>
    intro y z hxy hyz
    cases y with
    | nil => simp [strLeB] at hxy
    | cons b bs =>
      cases z with
      | nil => simp [strLeB] at hyz
      | cons c cs =>
        simp only [strLeB] at hxy hyz ⊢
        by_cases hab : a < b
        · by_cases hbc : b < c
          · simp [lt_trans hab hbc]
          · by_cases hcb : c < b
            · simp [hbc, hcb] at hyz
            · have hbc' : b = c := le_antisymm (not_lt.mp hcb) (not_lt.mp hbc)
              subst hbc'
              simp [hab]
        · by_cases hba : b < a
          · simp [hab, hba] at hxy
          · have hab' : a = b := le_antisymm (not_lt.mp hba) (not_lt.mp hab)
            subst hab'
            by_cases hac : a < c
            · simp [hac]
            · by_cases hca : c < a
              · simp [hac, hca] at hyz
              · have hac' : a = c := le_antisymm (not_lt.mp hca) (not_lt.mp hac)
                subst hac'
                simp [lt_irrefl] at hxy hyz ⊢
                exact ih _ _ hxy hyz

instance : IsTotal RunRecord createdGe :=
  ⟨fun a b => strLeB_total b.created_at.data a.created_at.data⟩

instance : IsTrans RunRecord createdGe :=
  ⟨fun _ _ _ h1 h2 => strLeB_trans _ _ _ h2 h1⟩

theorem dropWhile_head_false (p : α → Bool) (l : List α) (a : α) (t : List α)
    (h : l.dropWhile p = a :: t) : p a = false := by
  induction l with
  | nil => simp [List.dropWhile] at h
  | cons b l ih =>
    rw [List.dropWhile_cons] at h
    by_cases hb : p b
    · rw [if_pos hb] at h; exact ih h
    · rw [if_neg hb] at h
      injection h with h1 _
      subst h1
      simpa using hb

theorem dropWhile_dropWhile (p : α → Bool) (l : List α) :
    (l.dropWhile p).dropWhile p = l.dropWhile p := by
  cases h : l.dropWhile p with
  | nil => simp
  | cons a t =>
    have ha := dropWhile_head_false p l a t h
    rw [List.dropWhile_cons, if_neg (by simp [ha])]

theorem dropWhile_stripEnds (p : α → Bool) (l : List α) :
    (stripEnds p l).dropWhile p = stripEnds p l := by
  unfold stripEnds
  cases hB : ((l.dropWhile p).reverse.dropWhile p).reverse with
  | nil => simp
  | cons a t =>
    have h1 : (l.dropWhile p).reverse.takeWhile p ++ (l.dropWhile p).reverse.dropWhile p
        = (l.dropWhile p).reverse := List.takeWhile_append_dropWhile p (l.dropWhile p).reverse
    have h2 := congrArg List.reverse h1
    rw [List.reverse_append, List.reverse_reverse] at h2
    rw [hB] at h2
    have hm := h2.symm
    rw [List.cons_append] at hm
    have hpa : p a = false := dropWhile_head_false p l a _ hm
    rw [List.dropWhile_cons, if_neg (by simp [hpa])]

theorem stripEnds_idem (p : α → Bool) (l : List α) :
    stripEnds p (stripEnds p l) = stripEnds p l := by
  show (((stripEnds p l).dropWhile p).reverse.dropWhile p).reverse = stripEnds p l
  rw [dropWhile_stripEnds]
  show ((((l.dropWhile p).reverse.dropWhile p).reverse.reverse.dropWhile p)).reverse
      = stripEnds p l
  rw [List.reverse_reverse, dropWhile_dropWhile]
  rfl

theorem dropWhile_map_of (p : α → Bool) (f : α → α) (hf : ∀ c, p (f c) = p c) (l : List α) :
    (l.map f).dropWhile p = (l.dropWhile p).map f := by
  induction l with
  | nil => simp
  | cons a t ih =>
    rw [List.map_cons, List.dropWhile_cons, List.dropWhile_cons, hf a]
    by_cases h : p a
    · rw [if_pos h, if_pos h, ih]
    · rw [if_neg h, if_neg h, List.map_cons]

theorem stripEnds_map (p : α → Bool) (f : α → α) (hf : ∀ c, p (f c) = p c) (l : List α) :
    stripEnds p (l.map f) = (stripEnds p l).map f := by
  unfold stripEnds
  rw [dropWhile_map_of p f hf l, ← List.map_reverse, dropWhile_map_of p f hf,
    ← List.map_reverse]

theorem mem_of_mem_dropWhile (p : α → Bool) (c : α) (l : List α)
    (h : c ∈ l.dropWhile p) : c ∈ l := by
  have h1 := List.takeWhile_append_dropWhile p l
  rw [← h1]
  exact List.mem_append_right _ h

theorem mem_of_mem_stripEnds (p : α → Bool) (c : α) (l : List α)
    (h : c ∈ stripEnds p l) : c ∈ l := by
  unfold stripEnds at h
  rw [List.mem_reverse] at h
  have h2 := mem_of_mem_dropWhile _ _ _ h
  rw [List.mem_reverse] at h2
  exact mem_of_mem_dropWhile _ _ _ h2

theorem ws_subChar (c : Char) : (subChar c).isWhitespace = c.isWhitespace := by
  unfold subChar
  by_cases h : isForbiddenChar c = true
  · rw [if_pos h]
    unfold isForbiddenChar at h
    simp only [Bool.or_eq_true, beq_iff_eq] at h
    rcases h with ((((((((h | h) | h) | h) | h) | h) | h) | h) | h) <;> subst h <;> decide
  · rw [if_neg h]

theorem subChar_subChar (c : Char) : subChar (subChar c) = subChar c := by
  by_cases h : isForbiddenChar c = true
  · simp [subChar, h]
  · simp [subChar, h]

theorem subChar_not_forbidden (c : Char) : isForbiddenChar (subChar c) = false := by
  by_cases h : isForbiddenChar c = true
  · simp [subChar, h]; decide
  · simp [subChar, h]

theorem pyStrip_fixed (l : List Char) :
    pyStrip ((pyStrip l).map subChar) = (pyStrip l).map subChar := by
  unfold pyStrip
  rw [stripEnds_map Char.isWhitespace subChar ws_subChar, stripEnds_idem]

theorem map_subChar_subChar (l : List Char) :
    (l.map subChar).map subChar = l.map subChar := by
  rw [List.map_map]
  have h : (subChar ∘ subChar) = subChar := funext subChar_subChar
  rw [h]

theorem sanitizeList_ne_nil (l : List Char) : sanitizeList l ≠ [] := by
  unfold sanitizeList
  by_cases h : (pyStrip l).map subChar = []
  · rw [if_pos h]; decide
  · rw [if_neg h]; exact h

theorem sanitizeList_all_ok (l : List Char) :
    (sanitizeList l).all (fun c => !(isForbiddenChar c)) = true := by
  unfold sanitizeList
  by_cases h : (pyStrip l).map subChar = []
  · rw [if_pos h]; decide
  · rw [if_neg h]
    rw [List.all_eq_true]
    intro x hx
    rw [List.mem_map] at hx
    obtain ⟨y, _, hy⟩ := hx
    rw [← hy]
    simp [subChar_not_forbidden]

theorem sanitizeList_stripped (l : List Char) : pyStrip (sanitizeList l) = sanitizeList l := by
  unfold sanitizeList
  by_cases h : (pyStrip l).map subChar = []
  · rw [if_pos h]; decide
  · rw [if_neg h]
    exact pyStrip_fixed l

theorem sanitizeList_idem (l : List Char) : sanitizeList (sanitizeList l) = sanitizeList l := by
  by_cases h : (pyStrip l).map subChar = []
  · have h1 : sanitizeList l = "result".data := by
      unfold sanitizeList
      rw [if_pos h]
    rw [h1]
    decide
  · have h1 : sanitizeList l = (pyStrip l).map subChar := by
      unfold sanitizeList
      rw [if_neg h]
    rw [h1]
    have h2 : (pyStrip ((pyStrip l).map subChar)).map subChar = (pyStrip l).map subChar := by
      rw [pyStrip_fixed, map_subChar_subChar]
    unfold sanitizeList
    rw [h2, if_neg h]

theorem foldl_image_parts (f : String → Bool) (l : List String) (acc : List PromptPart) :
    l.foldl (fun acc img => if f img then acc ++ [PromptPart.image img] else acc) acc
      = acc ++ (l.filter f).map PromptPart.image := by
  induction l generalizing acc with
  | nil => simp
  | cons a t ih =>
    rw [List.foldl_cons, ih]
    by_cases h : f a
    · simp [h, List.filter_cons]
    · simp [h, List.filter_cons]

theorem mem_store_save (store : List (String × Option RunRecord)) (r : RunRecord)
    (h : r.run_id ≠ "") : some r ∈ (store_save store r).map Prod.snd := by
  unfold store_save
  rw [if_neg h]
  by_cases hany : store.any (fun p => p.1 == r.run_id) = true
  · rw [if_pos hany]
    rw [List.any_eq_true] at hany
    obtain ⟨p, hp, hpe⟩ := hany
    rw [List.map_map]
    refine List.mem_map.mpr ⟨p, hp, ?_⟩
    simp only [Function.comp]
    rw [if_pos hpe]
  · rw [if_neg hany]
    simp

/- ------------------------------------------------------------------ -/
/- Claim theorems -/
/- ------------------------------------------------------------------ -/

/-- C1. The claim demands that every run entry point reject a record with an
empty captures list before the AI backend is invoked. The code satisfies this
only in the new-run window: run_now warns and stops. Re-running a ready
record from the history window (HistoryWindow._handle, main.py 327-333)
performs no captures check: on the concrete ready record with empty captures
it enters execute_gemini_process and model.generate_content IS called, with a
payload holding only the instruction string. -/
theorem C1_empty_captures_history_rerun :
    run_now emptyCaptureRecord stubEnv = RunNowResult.warned
    ∧ history_handle emptyCaptureRecord stubEnv false
        = HandleResult.ran (execute_gemini_process emptyCaptureRecord stubEnv)
    ∧ (execute_gemini_process emptyCaptureRecord stubEnv).generateCalled = true
    ∧ prompt_parts emptyCaptureRecord stubEnv.captureExists
        = [PromptPart.text (build_prompt emptyCaptureRecord.purpose
            emptyCaptureRecord.doc_format)] := by
  refine ⟨rfl, rfl, rfl, rfl⟩

/-- C2. When the Gemini call raises, execute_gemini_process reports the
failure (critical dialog), the in-memory record is unmodified (in particular
its status stays whatever it was, "ready" for a run), save_run_record is
never called, and no artifact is written: the generate call sits before the
record mutation, the save and the artifact write in main.py 186-213. -/
theorem C2_generation_error_keeps_record_ready (record : RunRecord) (env : Env)
    (key e : String)
    (hkey : env.apiKey = some key)
    (hgen : env.generate (prompt_parts record env.captureExists) = Except.error e) :
    (execute_gemini_process record env).outcome = RunOutcome.failure e
    ∧ (execute_gemini_process record env).finalRecord = record
    ∧ (execute_gemini_process record env).savedRecord = none
    ∧ (execute_gemini_process record env).artifact = none := by
  unfold execute_gemini_process
  rw [hkey, hgen]
  exact ⟨rfl, rfl, rfl, rfl⟩

/-- Witness for C2 at a concrete ready record and a backend that raises. -/
theorem C2_generation_error_keeps_record_ready_witness :
    env2.apiKey = some "k"
    ∧ env2.generate (prompt_parts rec2 env2.captureExists) = Except.error "quota exceeded"
    ∧ ((execute_gemini_process rec2 env2).outcome = RunOutcome.failure "quota exceeded"
      ∧ (execute_gemini_process rec2 env2).finalRecord = rec2
      ∧ (execute_gemini_process rec2 env2).savedRecord = none
      ∧ (execute_gemini_process rec2 env2).artifact = none) :=
  ⟨rfl, rfl, C2_generation_error_keeps_record_ready rec2 env2 "k" "quota exceeded" rfl rfl⟩

/-- C3 counterexample. The claim quantifies over every upload failure
("auth unavailable, network error, provider error") and asserts the caller
receives a success outcome, the failure never surfacing as a run failure. On
the code this is false: upload_to_drive calls get_drive_service outside any
try (main.py 80), and an exception there — for example a network error while
refreshing the cached token (main.py 63) — propagates to the except branch at
main.py 221-222 and shows the run-failure dialog. At the concrete Excel
record, with rendering succeeded and the artifact written (the claim's
precondition, visible in the saved record and artifact), the outcome is the
failure dialog, not a success. -/
theorem C3_upload_exception_counterexample :
    (execute_gemini_process rec3 env3x).outcome
        = RunOutcome.failure "network error during token refresh"
    ∧ (execute_gemini_process rec3 env3x).savedRecord
        = some { rec3 with
            status := "done"
            output_file := rec3.output_basename ++ format_ext rec3.doc_format }
    ∧ (execute_gemini_process rec3 env3x).artifact
        = some (rec3.output_basename ++ format_ext rec3.doc_format,
                format_mime rec3.doc_format) := by
  refine ⟨rfl, rfl, rfl⟩

/-- C3 amended. When generation and rendering succeed, the record is saved
with status "done" and the derived output_file, and the artifact exists,
before the upload step runs (main.py 212-216), and nothing the upload does
undoes that local success. If the upload step completes without raising —
upload_to_drive returns None when credentials.json is missing or the Drive
call raises inside its own try (main.py 65-67, 86-92), or returns the file
id — the caller receives a success outcome carrying that optional remote id;
in particular a caught upload failure degrades to success with no remote
identifier. An exception escaping get_drive_service (corrupt token cache,
network error during token refresh, OAuth flow failure), however, is surfaced
as a run failure by the except handler, after the record was already saved
done. -/
theorem C3_upload_failure_amended (record : RunRecord) (env : Env)
    (key aiText : String)
    (hkey : env.apiKey = some key)
    (hgen : env.generate (prompt_parts record env.captureExists) = Except.ok aiText)
    (hrender : env.renderFault = none) :
    (execute_gemini_process record env).savedRecord
        = some { record with
            status := "done"
            output_file := record.output_basename ++ format_ext record.doc_format }
    ∧ (execute_gemini_process record env).artifact
        = some (record.output_basename ++ format_ext record.doc_format,
                format_mime record.doc_format)
    ∧ (execute_gemini_process record env).outcome
        = (match env.uploadResult with
           | Except.ok driveId => RunOutcome.success driveId
           | Except.error e => RunOutcome.failure e) := by
  unfold execute_gemini_process
  rw [hkey, hgen, hrender]
  cases env.uploadResult with
  | error e => exact ⟨rfl, rfl, rfl⟩
  | ok driveId => exact ⟨rfl, rfl, rfl⟩

/-- Witness for the amended C3 at a concrete Excel record whose upload step
returns no id without raising: the outcome is success with no remote
identifier. -/
theorem C3_upload_failure_amended_witness :
    env3.apiKey = some "k"
    ∧ env3.generate (prompt_parts rec3 env3.captureExists) = Except.ok "cell text"
    ∧ env3.renderFault = none
    ∧ ((execute_gemini_process rec3 env3).savedRecord
          = some { rec3 with
              status := "done"
              output_file := rec3.output_basename ++ format_ext rec3.doc_format }
      ∧ (execute_gemini_process rec3 env3).artifact
          = some (rec3.output_basename ++ format_ext rec3.doc_format,
                  format_mime rec3.doc_format)
      ∧ (execute_gemini_process rec3 env3).outcome
          = (match env3.uploadResult with
             | Except.ok driveId => RunOutcome.success driveId
             | Except.error e => RunOutcome.failure e)) :=
  ⟨rfl, rfl, rfl, C3_upload_failure_amended rec3 env3 "k" "cell text" rfl rfl rfl⟩

/-- C4 counterexample. The claim's own example fails on the code: the source
removes "**" first and "#" second, each deletion leaving neighbouring
characters (including the space after '#') in place, so
"**Summary**\n# Title\nHello" renders with a space before Title; and removing
'#' can join two stars, so the output of "*#*" is "**", refuting the claimed
absence of "**" from every output. -/
theorem C4_plain_text_counterexample :
    render_plain_text "**Summary**\n# Title\nHello" ≠ "Summary\nTitle\nHello"
    ∧ (render_plain_text "*#*").data = ['*', '*'] := by
  refine ⟨by decide, by decide⟩

/-- C4 amended. For doc_format = null the rendered output is the AI text with
non-overlapping "**" pairs removed, then every '#' removed, then stripped of
leading and trailing whitespace: the output contains no '#' (but can contain
"**" recreated by the '#' removal), is strip-fixed, and the claim's example
renders as "Summary\n Title\nHello", keeping the space that followed the
removed '#'. -/
theorem C4_plain_text_amended (ai : String) :
    (render_plain_text ai).data.all (fun c => c != '#') = true
    ∧ pyStrip (render_plain_text ai).data = (render_plain_text ai).data
    ∧ render_plain_text "**Summary**\n# Title\nHello" = "Summary\n Title\nHello" := by
  refine ⟨?_, ?_, by decide⟩
  · rw [List.all_eq_true]
    intro x hx
    have h1 : x ∈ removeHash (removeStarStar ai.data) :=
      mem_of_mem_stripEnds _ _ _ hx
    unfold removeHash at h1
    exact (List.mem_filter.mp h1).2
  · show pyStrip (pyStrip (removeHash (removeStarStar ai.data))) = _
    unfold pyStrip
    rw [stripEnds_idem]
    rfl

/-- C5. For every store snapshot and every limit, load_run_records returns at
most limit records, the result is sorted by created_at descending (pairwise
in the createdGe order), and an entry whose run.json fails to parse is
skipped without failing the load: deleting a corrupt entry anywhere in the
snapshot leaves the result unchanged. -/
theorem C5_recent_runs_bounded_sorted_skip_corrupt
    (entries : List (Option RunRecord)) (limit : Nat) :
    (load_run_records entries limit).length ≤ limit
    ∧ List.Pairwise createdGe (load_run_records entries limit)
    ∧ (∀ pre post : List (Option RunRecord),
        load_run_records (pre ++ none :: post) limit
          = load_run_records (pre ++ post) limit) := by
  refine ⟨?_, ?_, ?_⟩
  · simp [load_run_records, List.length_take]
  · exact (List.sorted_insertionSort createdGe _).sublist (List.take_sublist _ _)
  · intro pre post
    unfold load_run_records
    rw [List.filterMap_append, List.filterMap_append]
    simp

/-- C6 counterexample. The round-trip fails as universally stated: saving
recB (created_at 2024) into a store already holding recA (created_at 2025)
and listing recent_runs with N = 1 returns only recA, whose fields differ
from recB's, so no record with the saved fields is returned although N ≥ 1. -/
theorem C6_round_trip_counterexample :
    recent_runs (store_save [("a", some recA)] recB) 1 = [recA]
    ∧ recA ≠ recB := by
  refine ⟨by decide, by decide⟩

/-- C6 amended. Save followed by recent_runs returns the saved record with
identical fields whenever the record has a non-empty run_id and N is at least
the number of run directories after the save (in particular on a store
holding only this record); with fewer slots, records with later created_at
crowd the saved one out, as the counterexample shows. Field identity holds
because run.json is written with json.dump and read back with json.load,
which round-trips the JSON-representable record fields. -/
theorem C6_round_trip_amended (store : List (String × Option RunRecord))
    (r : RunRecord) (limit : Nat)
    (hid : r.run_id ≠ "")
    (hN : (store_save store r).length ≤ limit) :
    r ∈ recent_runs (store_save store r) limit := by
  unfold recent_runs load_run_records
  have hlen : (List.insertionSort createdGe
      (((store_save store r).map Prod.snd).filterMap id)).length ≤ limit := by
    rw [List.length_insertionSort]
    calc (((store_save store r).map Prod.snd).filterMap id).length
        ≤ ((store_save store r).map Prod.snd).length := List.length_filterMap_le _ _
      _ = (store_save store r).length := List.length_map _ _
      _ ≤ limit := hN
  rw [List.take_of_length_le hlen, List.mem_insertionSort]
  rw [List.mem_filterMap]
  exact ⟨some r, mem_store_save store r hid, rfl⟩

/-- Witness for the amended C6: saving recB into an empty store and listing
one recent run returns it. -/
theorem C6_round_trip_amended_witness :
    recB.run_id ≠ ""
    ∧ (store_save [] recB).length ≤ 1
    ∧ recB ∈ recent_runs (store_save [] recB) 1 :=
  ⟨by decide, by decide, C6_round_trip_amended [] recB 1 (by decide) (by decide)⟩

/-- C7. sanitize_output_basename maps "report/2024" to "report_2024" and a
blank string to "result"; for every input the output is non-empty, contains
no forbidden filesystem character, and carries no leading or trailing
whitespace (the input is trimmed before substitution and neither step can
reintroduce whitespace at the ends). -/
theorem C7_sanitize_basename_spec (s : String) :
    sanitize_output_basename "report/2024" = "report_2024"
    ∧ sanitize_output_basename "   " = "result"
    ∧ (sanitize_output_basename s).data.isEmpty = false
    ∧ (sanitize_output_basename s).data.all (fun c => !(isForbiddenChar c)) = true
    ∧ pyStrip (sanitize_output_basename s).data = (sanitize_output_basename s).data := by
  refine ⟨by decide, by decide, ?_, ?_, ?_⟩
  · show (sanitizeList s.data).isEmpty = false
    cases h : sanitizeList s.data with
    | nil => exact absurd h (sanitizeList_ne_nil s.data)
    | cons a t => rfl
  · exact sanitizeList_all_ok s.data
  · exact sanitizeList_stripped s.data

/-- C8. The payload handed to model.generate_content is the instruction
string (purpose line plus the format directive) followed by exactly the
capture images whose files exist, in captures order; an entry whose file is
missing contributes nothing, as the filter form shows. -/
theorem C8_prompt_payload_shape (record : RunRecord) (captureExists : String → Bool) :
    prompt_parts record captureExists
      = PromptPart.text (build_prompt record.purpose record.doc_format)
        :: (record.captures.filter captureExists).map PromptPart.image := by
  unfold prompt_parts
  rw [foldl_image_parts]
  rfl

/-- C9 counterexample. A fault in run_dir.mkdir is NOT reported by returning
failure: the mkdir call precedes the try block of save_run_record
(main.py 130-131), so the exception escapes the function instead of
producing the claimed False return. -/
theorem C9_mkdir_fault_escapes :
    save_run_record rec9 SaveFs.mkdirFail = Except.error "mkdir failed" := by
  rfl

/-- C9 amended. For a record with non-empty run_id, save_run_record returns
False on a write fault inside the try block and True on success, and the
successful write overwrites any prior version stored under the record's
run_id (every store entry keyed by that run_id afterwards holds exactly the
saved record); a fault in the directory creation, however, escapes as an
exception rather than returning failure, since the mkdir call is outside the
try block. -/
theorem C9_save_reports_write_faults (r : RunRecord)
    (store : List (String × Option RunRecord)) (p : String × Option RunRecord)
    (h : r.run_id ≠ "")
    (hp : p ∈ store_save store r)
    (hid : p.1 = r.run_id) :
    save_run_record r SaveFs.writeFail = Except.ok false
    ∧ save_run_record r SaveFs.ok = Except.ok true
    ∧ p.2 = some r := by
  refine ⟨?_, ?_, ?_⟩
  · unfold save_run_record; rw [if_neg h]
  · unfold save_run_record; rw [if_neg h]
  · unfold store_save at hp
    rw [if_neg h] at hp
    by_cases hany : store.any (fun q => q.1 == r.run_id) = true
    · rw [if_pos hany] at hp
      rw [List.mem_map] at hp
      obtain ⟨q, _, hq⟩ := hp
      by_cases hqe : q.1 == r.run_id
      · rw [if_pos hqe] at hq
        rw [← hq]
      · rw [if_neg hqe] at hq
        subst hq
        exact absurd (beq_iff_eq.mpr hid) hqe
    · rw [if_neg hany] at hp
      rw [List.mem_append] at hp
      rcases hp with hp | hp
      · rw [List.any_eq_true] at hany
        push_neg at hany
        exact absurd (beq_iff_eq.mpr hid) (by simpa using hany p hp)
      · simp at hp
        rw [hp]

/-- Witness for the amended C9 at a concrete record saved into an empty
store. -/
theorem C9_save_reports_write_faults_witness :
    rec9.run_id ≠ ""
    ∧ ("20250103_000000", some rec9) ∈ store_save [] rec9
    ∧ ("20250103_000000", (some rec9 : Option RunRecord)).1 = rec9.run_id
    ∧ (save_run_record rec9 SaveFs.writeFail = Except.ok false
      ∧ save_run_record rec9 SaveFs.ok = Except.ok true
      ∧ ("20250103_000000", (some rec9 : Option RunRecord)).2 = some rec9) :=
  ⟨by decide, by decide, by decide,
    C9_save_reports_write_faults rec9 [] ("20250103_000000", some rec9)
      (by decide) (by decide) (by decide)⟩

/-- C10. sanitize_output_basename is idempotent: its output has no forbidden
characters and no leading or trailing whitespace, and the fallback "result"
sanitizes to itself, so a second application changes nothing. -/
theorem C10_sanitize_idempotent (s : String) :
    sanitize_output_basename (sanitize_output_basename s) = sanitize_output_basename s := by
  unfold sanitize_output_basename
  exact congrArg String.mk (sanitizeList_idem s.data)
